import Mathlib

/-
  Verification development for the vuru package-metadata cache and review
  pipeline (src/vuru). The Rust sources are shallowly embedded: the
  filesystem state visible to one command invocation is explicit, the
  network is an oracle value describing the single response a call
  receives, and serde_json encode/decode are abstract function parameters
  (the index payload format is external JSON; the claims do not depend on
  its grammar). Filesystem writes on the success path are modelled as
  succeeding; the claims under study only constrain paths on which the
  code performs no write, or performs writes the model records.
-/

namespace Vuru

/-- Package metadata record, from `PackageInfo` in src/vuru/src/index.rs. -/
structure PackageInfo where
  category : String
  version : String
  repo_url : String
  deriving DecidableEq, Repr

/-- The decoded index: `Index(pub HashMap<String, PackageInfo>)`.
    The HashMap is modelled as an association list; list order stands for
    the map's (unspecified) iteration order. -/
abbrev IndexMap : Type := List (String × PackageInfo)

/-- One on-disk file as a single command invocation observes it: absent,
    present but unreadable (read_to_string fails), or readable with the
    given content. -/
inductive File where
  | absent
  | unreadable
  | readable (content : String)
  deriving DecidableEq, Repr

/-- Models `path.exists()`. -/
def File.pathExists : File → Bool
  | .absent => false
  | _ => true

/-- Models `fs::read_to_string(path).ok()`: some content iff the file is
    present and readable. -/
def File.readToString : File → Option String
  | .readable c => some c
  | _ => none

/-- Error values arising in the embedded code (anyhow errors, by shape).
    `ctx` models `anyhow`'s `.context(msg)` wrapping. -/
inductive Err where
  | transport
  | decodeFail
  | readFail
  | writeFail
  | msg (s : String)
  | ctx (s : String) (e : Err)
  deriving DecidableEq, Repr

/-- The spec's `SyncUnavailable` is the error produced on the no-cache
    fallback path: the fetch error wrapped with this exact context. -/
def Err.isSyncUnavailable : Err → Bool
  | .ctx s _ => s == "Failed to fetch index and no cache available"
  | _ => false

/-- The one network response a call to `Index::fetch` receives: either the
    transport fails (`request.send()?`), or a response arrives with a
    status code, an optional etag header, and a body. -/
inductive NetResult where
  | transportErr
  | response (status : Nat) (etagHdr : Option String) (body : String)
  deriving DecidableEq, Repr

/-- Embeds `Index::fetch` (src/vuru/src/index.rs). A 304 status returns a
    dummy empty index tagged not-updated; otherwise the etag header is
    read and the body is decoded (`response.json()?`), a decode failure
    being an error. The status code is not otherwise inspected. The `etag`
    argument is the If-None-Match header value the request carries. -/
def fetch (decode : String → Option IndexMap) (etag : Option String)
    (net : NetResult) : Except Err (IndexMap × Option String × Bool) :=
  match net with
  | .transportErr => .error Err.transport
  | .response status etagHdr body =>
      if status = 304 then
        .ok (([] : List (String × PackageInfo)), none, false)
      else
        match decode body with
        | some m => .ok (m, etagHdr, true)
        | none => .error Err.decodeFail

/-- The cache directory state relevant to index synchronization: the index
    file and its sidecar etag file. -/
structure FsState where
  idxFile : File
  etagFile : File
  deriving DecidableEq, Repr

/-- Result of one `load_or_fetch` call: the returned value, the cache
    state after the call, how many network calls were made, and (when a
    fetch happened) the etag header it carried. -/
structure SyncResult where
  result : Except Err IndexMap
  fs : FsState
  netCalls : Nat
  sentEtag : Option (Option String)

/-- The cached-etag read at the top of `load_or_fetch`: the token file is
    read only when both the index file and the etag file exist. -/
def cachedEtag (fs : FsState) : Option String :=
  if fs.idxFile.pathExists && fs.etagFile.pathExists then
    fs.etagFile.readToString
  else
    none

/-- The strict cache read used on the not-modified and fetch-error paths:
    `fs::read_to_string(&path)?` then `serde_json::from_str(&content)?`,
    both errors propagating. -/
def read_cached_index (decode : String → Option IndexMap) (f : File) :
    Except Err IndexMap :=
  match f.readToString with
  | none => .error Err.readFail
  | some content =>
      match decode content with
      | none => .error Err.decodeFail
      | some m => .ok m

/-- The part of `load_or_fetch` after the cache-hit fast path: match on
    the fetch result; on not-modified re-read the cache strictly; on a new
    payload overwrite the index file (and, best-effort, the etag file) and
    return the new index; on fetch error fall back to the cache when the
    index file exists, else fail with the no-cache context error. -/
def after_cache_miss (decode : String → Option IndexMap)
    (encode : IndexMap → String) (fs : FsState) (et : Option String)
    (net : NetResult) : SyncResult :=
  match fetch decode et net with
  | .ok (idx, newEtag, updated) =>
      if !updated then
        ⟨read_cached_index decode fs.idxFile, fs, 1, some et⟩
      else
        let fs1 : FsState :=
          ⟨File.readable (encode idx),
           match newEtag with
           | some e => File.readable e
           | none => fs.etagFile⟩
        ⟨.ok idx, fs1, 1, some et⟩
  | .error e =>
      if fs.idxFile.pathExists then
        ⟨read_cached_index decode fs.idxFile, fs, 1, some et⟩
      else
        ⟨.error (Err.ctx "Failed to fetch index and no cache available" e),
         fs, 1, some et⟩

/-- The cache-hit fast path of `load_or_fetch`: when no forced update is
    requested and the index file exists, a successful read and decode
    yields the cached index; any failure yields nothing, falling through
    to the fetch. -/
def try_cache_hit (decode : String → Option IndexMap) (force : Bool)
    (f : File) : Option IndexMap :=
  if !force && f.pathExists then
    match f.readToString with
    | some content => decode content
    | none => none
  else
    none

/-- Embeds `Index::load_or_fetch` (src/vuru/src/index.rs). -/
def load_or_fetch (decode : String → Option IndexMap)
    (encode : IndexMap → String) (fs : FsState) (force : Bool)
    (net : NetResult) : SyncResult :=
  match try_cache_hit decode force fs.idxFile with
  | some m => ⟨.ok m, fs, 0, none⟩
  | none => after_cache_miss decode encode fs (cachedEtag fs) net

/-- Character-list version of "q is a prefix of s". -/
def listPrefixOf : List Char → List Char → Bool
  | [], _ => true
  | _ :: _, [] => false
  | a :: as, b :: bs => a == b && listPrefixOf as bs

/-- Character-list version of "q occurs inside s"; the empty query always
    occurs, matching Rust's `str::contains`. -/
def listContainsSub : List Char → List Char → Bool
  | [], _ => true
  | _ :: _, [] => false
  | a :: as, b :: bs =>
      listPrefixOf (a :: as) (b :: bs) || listContainsSub (a :: as) bs

/-- Models `name.contains(query)` on strings. -/
def strContains (s q : String) : Bool :=
  listContainsSub q.data s.data

/-- Embeds `Index::search`: filter the entries on substring containment of
    the query in the package name, in map iteration order. -/
def search (idx : IndexMap) (q : String) : IndexMap :=
  List.filter (fun p => strContains p.1 q) idx

/-- Embeds `Index::get`: exact-key lookup. -/
def get (idx : IndexMap) (pkg : String) : Option PackageInfo :=
  List.lookup pkg idx

/-- The template area of the cache (src/vuru/src/cache.rs): one file per
    package name. -/
abbrev TStore : Type := List (String × File)

/-- The file currently at `template_path(pkg)`. -/
def get_file (store : TStore) (pkg : String) : File :=
  (List.lookup pkg store).getD File.absent

/-- Embeds `Cache::get_template`: if the path exists, `read_to_string(.).ok()`;
    otherwise `None`. A present-but-unreadable file therefore also yields
    `None`, indistinguishable from absence. -/
def get_template (store : TStore) (pkg : String) : Option String :=
  let f := get_file store pkg
  if f.pathExists then f.readToString else none

/-- Embeds `Cache::save_template` (write modelled as succeeding). -/
def save_template (store : TStore) (pkg : String) (content : String) :
    TStore :=
  (pkg, File.readable content) :: store

/-- Outcome of `io::stdin().read_line(&mut input)`: an I/O failure (the
    `?` propagates), or the bytes read. End of input reads zero bytes and
    leaves the buffer as the empty string, so it is `line ""`. -/
inductive PromptRead where
  | fail
  | line (s : String)
  deriving DecidableEq, Repr

/-- Environment of one `review_changes` call: whether writing each of the
    two temporary diff files succeeds, and the prompt-read outcome. The
    pager spawn on the first-install path and the stdout writes are
    modelled as succeeding; the external `diff` process's exit status is
    ignored by the code. -/
structure ReviewEnv where
  w1 : Bool
  w2 : Bool
  prompt : PromptRead
  deriving DecidableEq, Repr

/-- The rendering branch `review_changes` takes, decided by the cached
    copy before any prompt. -/
inductive RenderMode where
  | unchangedMsg
  | diffView
  | fullView
  deriving DecidableEq, Repr

/-- Result of `review_changes`: the returned decision or error, the
    rendering branch taken, and the temporary diff files still existing on
    disk when the call returns. -/
structure ReviewOut where
  result : Except Err Bool
  render : RenderMode
  tempLeft : List String

/-- Whitespace test for trimming the prompt answer. -/
def isWs (c : Char) : Bool :=
  c == ' ' || c == '\n' || c == '\t' || c == '\r'

/-- Models `input.trim()` on the character list. -/
def trimChars (l : List Char) : List Char :=
  ((List.dropWhile isWs l).reverse.dropWhile isWs).reverse

/-- Models `input.trim().to_lowercase()` for the prompt answer. -/
def normalizeAnswer (s : String) : String :=
  String.mk ((trimChars s.data).map Char.toLower)

/-- The prompt tail of `review_changes`: trim, lowercase, and accept the
    empty string, "y" or "yes" as affirmative. -/
def promptDecision : PromptRead → Except Err Bool
  | .fail => .error Err.readFail
  | .line s =>
      let t := normalizeAnswer s
      .ok (t == "" || t == "y" || t == "yes")

/-- Embeds `review_changes` (src/vuru/src/xbps/diff.rs). With a previous
    copy equal to the current text, only a message is printed; with a
    differing previous copy, the two temp files are written (an early `?`
    failure leaves already-written ones behind), `diff` runs, and both are
    removed; with no previous copy the full content is paged. Then the
    confirmation prompt runs. -/
def review_changes (pkg current : String) (previous : Option String)
    (env : ReviewEnv) : ReviewOut :=
  match previous with
  | some prev =>
      if prev == current then
        ⟨promptDecision env.prompt, RenderMode.unchangedMsg, []⟩
      else
        if env.w1 then
          if env.w2 then
            ⟨promptDecision env.prompt, RenderMode.diffView, []⟩
          else
            ⟨.error Err.writeFail, RenderMode.diffView, [pkg ++ ".old"]⟩
        else
          ⟨.error Err.writeFail, RenderMode.diffView, []⟩
  | none =>
      ⟨promptDecision env.prompt, RenderMode.fullView, []⟩

/-- Environment of one `install` call: the result of `fetch_template`
    (network), the review environment, and the external installer's
    success. -/
structure InstallEnv where
  net_template : Except Err String
  review : ReviewEnv
  xbps_ok : Bool

/-- Result of one `install` call: the returned value, the template store
    after the call, and whether the external installer was invoked. -/
structure InstallOut where
  result : Except Err Unit
  store : TStore
  invoked : Bool

/-- Embeds `install` (src/vuru/src/xbps/install.rs): look the package up,
    fetch its template, review against the cached copy, and only when the
    user confirms save the template and invoke the external installer. A
    declined review returns Ok without touching the store. -/
def install (pkg : String) (idx : IndexMap) (store : TStore)
    (env : InstallEnv) : InstallOut :=
  match get idx pkg with
  | none =>
      ⟨.error (Err.msg ("Package " ++ pkg ++ " not found in VUP index")),
       store, false⟩
  | some _info =>
      match env.net_template with
      | .error e => ⟨.error e, store, false⟩
      | .ok new_template =>
          let cached := get_template store pkg
          let r := review_changes pkg new_template cached env.review
          match r.result with
          | .error e => ⟨.error e, store, false⟩
          | .ok false => ⟨.ok (), store, false⟩
          | .ok true =>
              let store1 := save_template store pkg new_template
              if env.xbps_ok then
                ⟨.ok (), store1, true⟩
              else
                ⟨.error (Err.msg "xbps-install failed"), store1, true⟩

/-- The concrete metadata of the spec's scenario package `foo`. -/
def fooInfo : PackageInfo :=
  ⟨"dev", "1.0", "http://x"⟩

/-- The one-entry scenario index. -/
def fooIdx : IndexMap :=
  [("foo", fooInfo)]

/-- A concrete decode function for scenarios: the cached payload "IDX"
    decodes to the `foo` index; "EMPTYOBJ" stands for an empty JSON object
    body (which serde decodes to an empty map); everything else fails. -/
def decEx : String → Option IndexMap := fun s =>
  if s = "IDX" then some fooIdx
  else if s = "EMPTYOBJ" then some ([] : List (String × PackageInfo))
  else none

/-- The matching concrete encode function. -/
def encEx : IndexMap → String := fun m =>
  if m = ([] : IndexMap) then "EMPTYOBJ" else "IDX"

/-- Scenario cache: the `foo` index cached under token "etag-1". -/
def fsEx : FsState :=
  ⟨File.readable "IDX", File.readable "etag-1"⟩

/-- Scenario cache with no files at all. -/
def fsNone : FsState :=
  ⟨File.absent, File.absent⟩

/-- Scenario index for the search claim, in an iteration order the
    underlying hash map is free to produce. -/
def exIdx : IndexMap :=
  [("food", fooInfo), ("foo", fooInfo), ("bar", fooInfo)]

/-- Scenario cache with an index file but no etag sidecar. -/
def fsNoEtag : FsState :=
  ⟨File.readable "IDX", File.absent⟩

/-- Scenario cache with an orphaned token: the etag file exists but the
    index file is absent. -/
def fsTokenOnly : FsState :=
  ⟨File.absent, File.readable "etag-1"⟩

/-- Scenario cache whose index file exists but cannot be read. -/
def fsUnreadable : FsState :=
  ⟨File.unreadable, File.absent⟩

/-- Scenario template store whose cached template for foo is unreadable. -/
def storeUnreadable : TStore :=
  [("foo", File.unreadable)]

/-- Install environment in which the user explicitly declines. -/
def envDecline : InstallEnv :=
  ⟨Except.ok "TPL", ⟨true, true, PromptRead.line "n"⟩, true⟩

/-- Install environment in which the prompt read hits end of input and
    reads the empty string. -/
def envEOF : InstallEnv :=
  ⟨Except.ok "TPL", ⟨true, true, PromptRead.line ""⟩, true⟩

/-- Install environment in which the prompt read fails with an I/O
    error. -/
def envPromptFail : InstallEnv :=
  ⟨Except.ok "TPL", ⟨true, true, PromptRead.fail⟩, true⟩

lemma listContainsSub_nil (l : List Char) : listContainsSub [] l = true := by
  cases l <;> rfl

lemma strContains_empty (s : String) : strContains s "" = true :=
  listContainsSub_nil s.data

lemma after_cache_miss_sentEtag (decode : String → Option IndexMap)
    (encode : IndexMap → String) (fs : FsState) (et : Option String)
    (net : NetResult) :
    (after_cache_miss decode encode fs et net).sentEtag = some et := by
  unfold after_cache_miss
  cases hf : fetch decode et net with
  | ok v =>
      obtain ⟨idx, newEtag, updated⟩ := v
      cases updated <;> rfl
  | error e =>
      by_cases hp : fs.idxFile.pathExists = true
      · simp [hp]
      · simp [hp]

lemma try_cache_hit_force (decode : String → Option IndexMap) (f : File) :
    try_cache_hit decode true f = none := rfl

lemma try_cache_hit_hit (decode : String → Option IndexMap) (c : String)
    (m : IndexMap) (hd : decode c = some m) :
    try_cache_hit decode false (File.readable c) = some m := by
  simp [try_cache_hit, File.pathExists, File.readToString, hd]

lemma try_cache_hit_no_file (decode : String → Option IndexMap)
    (force : Bool) (f : File) (h : f.pathExists = false) :
    try_cache_hit decode force f = none := by
  simp [try_cache_hit, h]

lemma try_cache_hit_no_read (decode : String → Option IndexMap)
    (force : Bool) (f : File) (h : f.readToString = none) :
    try_cache_hit decode force f = none := by
  unfold try_cache_hit
  rw [h]
  split <;> rfl

/-- C1 (counterexample): a non-success (500) response whose body still
    decodes as an index is not treated as a failed network attempt: the
    code accepts it, overwrites the cached index, and returns the new
    (empty) index instead of falling back to the cache. -/
theorem C1_counterexample :
    ((load_or_fetch decEx encEx fsEx true
        (NetResult.response 500 none "EMPTYOBJ")).result
      = Except.ok ([] : IndexMap)) ∧
    ((load_or_fetch decEx encEx fsEx true
        (NetResult.response 500 none "EMPTYOBJ")).fs.idxFile
      = File.readable "EMPTYOBJ") ∧
    (decide (([] : IndexMap) = fooIdx) = false) ∧
    (decide (File.readable "EMPTYOBJ" = File.readable "IDX") = false) :=
  ⟨rfl, rfl, rfl, rfl⟩

/-- C1 (amended): when the network attempt fails in the sense the code
    recognises — transport error, or decode failure of the response body
    (a non-success status is a failure only through its body failing to
    decode) — a decodable cached index is returned unchanged with the
    cache untouched, and with no cached index file the call fails with the
    SyncUnavailable context error and modifies nothing. -/
theorem C1_amended (decode : String → Option IndexMap)
    (encode : IndexMap → String) (fs : FsState) (force : Bool)
    (net : NetResult) (e : Err)
    (hf : fetch decode (cachedEtag fs) net = Except.error e) :
    (∀ c m, fs.idxFile = File.readable c → decode c = some m →
        (load_or_fetch decode encode fs force net).result = Except.ok m ∧
        (load_or_fetch decode encode fs force net).fs = fs) ∧
    (fs.idxFile.pathExists = false →
        (load_or_fetch decode encode fs force net).result =
          Except.error
            (Err.ctx "Failed to fetch index and no cache available" e) ∧
        (load_or_fetch decode encode fs force net).fs = fs) := by
  constructor
  · intro c m hc hd
    cases force with
    | false =>
        have hhit := try_cache_hit_hit decode c m hd
        rw [← hc] at hhit
        simp [load_or_fetch, hhit]
    | true =>
        simp [load_or_fetch, try_cache_hit_force, after_cache_miss, hf, hc,
          File.pathExists, read_cached_index, File.readToString, hd]
  · intro habs
    have h0 : try_cache_hit decode force fs.idxFile = none :=
      try_cache_hit_no_file decode force fs.idxFile habs
    simp [load_or_fetch, h0, after_cache_miss, hf, habs]

/-- C1 (witness): with a decodable cached index present and a transport
    error, the forced refresh returns the cached foo index and leaves the
    cache files untouched. -/
theorem C1_witness :
    (load_or_fetch decEx encEx fsNoEtag true NetResult.transportErr).result
      = Except.ok fooIdx ∧
    (load_or_fetch decEx encEx fsNoEtag true NetResult.transportErr).fs
      = fsNoEtag :=
  (C1_amended decEx encEx fsNoEtag true NetResult.transportErr Err.transport
    rfl).1 "IDX" fooIdx rfl rfl

/-- C2: with the cached index file present and decodable, a call with no
    forced refresh returns the cached index with zero network calls and
    leaves the cache unchanged, so a second such call also makes zero
    network calls and returns an identical index. -/
theorem C2_cache_idempotent (decode : String → Option IndexMap)
    (encode : IndexMap → String) (fs : FsState) (net net2 : NetResult)
    (c : String) (m : IndexMap)
    (hc : fs.idxFile = File.readable c) (hd : decode c = some m) :
    (load_or_fetch decode encode fs false net).result = Except.ok m ∧
    (load_or_fetch decode encode fs false net).netCalls = 0 ∧
    (load_or_fetch decode encode fs false net).fs = fs ∧
    (load_or_fetch decode encode (load_or_fetch decode encode fs false net).fs
        false net2).result = Except.ok m ∧
    (load_or_fetch decode encode (load_or_fetch decode encode fs false net).fs
        false net2).netCalls = 0 := by
  have hhit := try_cache_hit_hit decode c m hd
  rw [← hc] at hhit
  have h1 : load_or_fetch decode encode fs false net
      = ⟨Except.ok m, fs, 0, none⟩ := by
    simp [load_or_fetch, hhit]
  have h2 : load_or_fetch decode encode fs false net2
      = ⟨Except.ok m, fs, 0, none⟩ := by
    simp [load_or_fetch, hhit]
  rw [h1]
  exact ⟨rfl, rfl, rfl, by rw [h2], by rw [h2]⟩

/-- C2 (witness): the concrete foo cache hit twice, with no network
    call on either run. -/
theorem C2_witness :
    (load_or_fetch decEx encEx fsEx false NetResult.transportErr).result
      = Except.ok fooIdx ∧
    (load_or_fetch decEx encEx fsEx false NetResult.transportErr).netCalls
      = 0 ∧
    (load_or_fetch decEx encEx fsEx false NetResult.transportErr).fs
      = fsEx ∧
    (load_or_fetch decEx encEx
        (load_or_fetch decEx encEx fsEx false NetResult.transportErr).fs
        false NetResult.transportErr).result = Except.ok fooIdx ∧
    (load_or_fetch decEx encEx
        (load_or_fetch decEx encEx fsEx false NetResult.transportErr).fs
        false NetResult.transportErr).netCalls = 0 :=
  C2_cache_idempotent decEx encEx fsEx NetResult.transportErr
    NetResult.transportErr "IDX" fooIdx rfl rfl

/-- C3: with the foo index cached under token "etag-1", a forced refresh
    answered "not modified" returns the same foo entry, sends exactly the
    stored token, and rewrites neither the index file nor the token
    file. -/
theorem C3_not_modified_pure :
    (load_or_fetch decEx encEx fsEx true
        (NetResult.response 304 none "")).result = Except.ok fooIdx ∧
    (load_or_fetch decEx encEx fsEx true
        (NetResult.response 304 none "")).fs = fsEx ∧
    (load_or_fetch decEx encEx fsEx true
        (NetResult.response 304 none "")).sentEtag
      = some (some "etag-1") ∧
    get fooIdx "foo" = some fooInfo :=
  ⟨rfl, rfl, rfl, rfl⟩

/-- C4: when the user declines the review confirmation, install returns
    Ok without saving the fetched template — the store is unchanged and
    the external installer is never invoked. -/
theorem C4_decline_preserves_store (pkg : String) (idx : IndexMap)
    (store : TStore) (env : InstallEnv) (info : PackageInfo) (t : String)
    (hl : get idx pkg = some info)
    (ht : env.net_template = Except.ok t)
    (hd : (review_changes pkg t (get_template store pkg) env.review).result
      = Except.ok false) :
    (install pkg idx store env).store = store ∧
    (install pkg idx store env).result = Except.ok () ∧
    (install pkg idx store env).invoked = false := by
  simp [install, hl, ht, hd]

/-- C4 (witness): foo's install with the user answering "n" leaves the
    empty template store empty. -/
theorem C4_witness :
    (install "foo" fooIdx [] envDecline).store = ([] : TStore) ∧
    (install "foo" fooIdx [] envDecline).result = Except.ok () ∧
    (install "foo" fooIdx [] envDecline).invoked = false :=
  C4_decline_preserves_store "foo" fooIdx [] envDecline fooInfo "TPL"
    rfl rfl rfl

/-- C5: the stored freshness token is trusted only together with its
    index file: when the index file is absent, the computed token is none
    even though the token file exists, and the fetch the call performs
    carries no token. -/
theorem C5_token_needs_index (decode : String → Option IndexMap)
    (encode : IndexMap → String) (fs : FsState) (force : Bool)
    (net : NetResult) (t : String)
    (habs : fs.idxFile = File.absent)
    (het : fs.etagFile = File.readable t) :
    cachedEtag fs = none ∧
    (load_or_fetch decode encode fs force net).sentEtag = some none := by
  have hce : cachedEtag fs = none := by
    simp [cachedEtag, habs, File.pathExists]
  refine ⟨hce, ?_⟩
  have h0 : try_cache_hit decode force fs.idxFile = none := by
    refine try_cache_hit_no_file decode force fs.idxFile ?_
    rw [habs]
    rfl
  have hlf : load_or_fetch decode encode fs force net
      = after_cache_miss decode encode fs (cachedEtag fs) net := by
    simp [load_or_fetch, h0]
  rw [hlf, hce]
  exact after_cache_miss_sentEtag decode encode fs none net

/-- C5 (witness): an orphaned "etag-1" token file next to a missing index
    file is treated as no token at all. -/
theorem C5_witness :
    cachedEtag fsTokenOnly = none ∧
    (load_or_fetch decEx encEx fsTokenOnly true
        NetResult.transportErr).sentEtag = some none :=
  C5_token_needs_index decEx encEx fsTokenOnly true NetResult.transportErr
    "etag-1" rfl rfl

/-- C6 (counterexample): searching "oo" over the scenario index in the
    iteration order food, foo, bar returns the names ["food", "foo"] — and
    since "foo" is a proper prefix of "food" it strictly precedes it
    lexicographically, so the output is not in lexicographic order by
    name. -/
theorem C6_counterexample :
    ((search exIdx "oo").map Prod.fst = ["food", "foo"]) ∧
    (listPrefixOf "foo".data "food".data = true) ∧
    (decide ("foo" = "food") = false) ∧
    (decide ((search exIdx "oo").map Prod.fst = ["foo", "food"]) = false) :=
  ⟨rfl, rfl, rfl, rfl⟩

/-- C6 (amended): search filters entries by substring containment of the
    query in the package name, the empty query matching every entry; the
    result order is the map's iteration order, not a sorted one. On the
    scenario index the query "oo" returns exactly the entries named food
    and foo, excluding bar. -/
theorem C6_amended :
    (∀ (idx : IndexMap) (q : String) (p : String × PackageInfo),
        p ∈ search idx q ↔ (p ∈ idx ∧ strContains p.1 q = true)) ∧
    (∀ idx : IndexMap, search idx "" = idx) ∧
    ((search exIdx "oo").map Prod.fst = ["food", "foo"]) ∧
    ((search exIdx "oo").length = 2) := by
  refine ⟨?_, ?_, rfl, rfl⟩
  · intro idx q p
    simp [search, List.mem_filter]
  · intro idx
    simp [search, strContains_empty]

/-- C6 (witness): the characterization evaluated at the foo entry and the
    empty query over the scenario index. -/
theorem C6_witness :
    (("foo", fooInfo) ∈ search exIdx "oo"
      ↔ (("foo", fooInfo) ∈ exIdx ∧ strContains "foo" "oo" = true)) ∧
    search exIdx "" = exIdx :=
  ⟨C6_amended.1 exIdx "oo" ("foo", fooInfo), C6_amended.2.1 exIdx⟩

lemma review_error_of_prompt_fail (pkg cur : String)
    (prev : Option String) (env : ReviewEnv)
    (hp : env.prompt = PromptRead.fail) :
    ∃ e, (review_changes pkg cur prev env).result = Except.error e := by
  cases prev with
  | none =>
      exact ⟨Err.readFail, by simp [review_changes, promptDecision, hp]⟩
  | some p =>
      cases hpc : p == cur with
      | true =>
          exact ⟨Err.readFail,
            by simp [review_changes, promptDecision, hp, hpc]⟩
      | false =>
          cases hw1 : env.w1 with
          | false =>
              exact ⟨Err.writeFail, by simp [review_changes, hpc, hw1]⟩
          | true =>
              cases hw2 : env.w2 with
              | false =>
                  exact ⟨Err.writeFail,
                    by simp [review_changes, hpc, hw1, hw2]⟩
              | true =>
                  exact ⟨Err.readFail,
                    by simp [review_changes, promptDecision, hp, hpc,
                      hw1, hw2]⟩

/-- C7 (counterexample): with no input stream left, the prompt read
    returns zero bytes, the buffer stays empty, and the empty answer is
    the affirmative default: the review returns an affirmative decision
    and the installation proceeds (the template is saved and the installer
    invoked). -/
theorem C7_counterexample :
    ((review_changes "foo" "TPL" none
        ⟨true, true, PromptRead.line ""⟩).result = Except.ok true) ∧
    ((install "foo" fooIdx [] envEOF).invoked = true) ∧
    ((install "foo" fooIdx [] envEOF).result = Except.ok ()) ∧
    ((install "foo" fooIdx [] envEOF).store
      = save_template [] "foo" "TPL") :=
  ⟨rfl, rfl, rfl, rfl⟩

/-- C7 (amended): a prompt read that fails with an I/O error makes the
    review return an error (not a decision); the install then aborts with
    that error, leaving the template store unchanged and never invoking
    the installer. An exhausted input stream, by contrast, reads the empty
    string, which is the affirmative default. -/
theorem C7_amended (pkg : String) (idx : IndexMap) (store : TStore)
    (env : InstallEnv) (info : PackageInfo) (t : String)
    (hl : get idx pkg = some info)
    (ht : env.net_template = Except.ok t)
    (hp : env.review.prompt = PromptRead.fail) :
    (∃ e, (review_changes pkg t (get_template store pkg)
        env.review).result = Except.error e) ∧
    (∃ e, (install pkg idx store env).result = Except.error e) ∧
    (install pkg idx store env).store = store ∧
    (install pkg idx store env).invoked = false := by
  obtain ⟨e, he⟩ :=
    review_error_of_prompt_fail pkg t (get_template store pkg)
      env.review hp
  exact ⟨⟨e, he⟩, ⟨e, by simp [install, hl, ht, he]⟩,
    by simp [install, hl, ht, he], by simp [install, hl, ht, he]⟩

/-- C7 (witness): foo's install with a failing prompt read errors out
    without touching the store or invoking the installer. -/
theorem C7_witness :
    (∃ e, (review_changes "foo" "TPL" (get_template [] "foo")
        envPromptFail.review).result = Except.error e) ∧
    (∃ e, (install "foo" fooIdx [] envPromptFail).result
      = Except.error e) ∧
    (install "foo" fooIdx [] envPromptFail).store = ([] : TStore) ∧
    (install "foo" fooIdx [] envPromptFail).invoked = false :=
  C7_amended "foo" fooIdx [] envPromptFail fooInfo "TPL" rfl rfl rfl

/-- C8 (counterexample): in the diff branch, when the first temporary
    file is written and writing the second fails, the call returns early
    with the first temporary file still on disk. -/
theorem C8_counterexample :
    ((review_changes "foo" "A\nC\n" (some "A\nB\n")
        ⟨true, false, PromptRead.line ""⟩).tempLeft = ["foo.old"]) ∧
    ((review_changes "foo" "A\nC\n" (some "A\nB\n")
        ⟨true, false, PromptRead.line ""⟩).result
      = Except.error Err.writeFail) :=
  ⟨rfl, rfl⟩

/-- C8 (amended): on every exit path except the one where the first
    temporary write succeeds and the second fails, no temporary file
    remains when the call returns — in particular whenever the second
    write succeeds, or the first write fails, or no diff is rendered. -/
theorem C8_amended (pkg current : String) (previous : Option String)
    (env : ReviewEnv) (h : env.w1 = false ∨ env.w2 = true) :
    (review_changes pkg current previous env).tempLeft = [] := by
  cases previous with
  | none => rfl
  | some p =>
      cases hpc : p == current with
      | true => simp [review_changes, hpc]
      | false =>
          cases hw1 : env.w1 with
          | false => simp [review_changes, hpc, hw1]
          | true =>
              cases hw2 : env.w2 with
              | true => simp [review_changes, hpc, hw1, hw2]
              | false =>
                  rcases h with h | h <;> simp [hw1, hw2] at h

/-- C8 (witness): on the successful diff path both temporary files have
    been removed by the time the call returns. -/
theorem C8_witness :
    (review_changes "foo" "A\nC\n" (some "A\nB\n")
        ⟨true, true, PromptRead.line ""⟩).tempLeft = ([] : List String) :=
  C8_amended "foo" "A\nC\n" (some "A\nB\n")
    ⟨true, true, PromptRead.line ""⟩ (Or.inr rfl)

/-- C9 (counterexample): a 304 response with no cached index file makes
    the call fail with the bare cache-read error, which is not the
    SyncUnavailable context error (the latter only arises on the fetch
    error fallback path); no empty index is returned and no file is
    created. -/
theorem C9_counterexample :
    ((load_or_fetch decEx encEx fsNone true
        (NetResult.response 304 none "")).result
      = Except.error Err.readFail) ∧
    (Err.readFail.isSyncUnavailable = false) ∧
    ((Err.ctx "Failed to fetch index and no cache available"
        Err.transport).isSyncUnavailable = true) ∧
    ((load_or_fetch decEx encEx fsNone true
        (NetResult.response 304 none "")).fs = fsNone) :=
  ⟨rfl, rfl, rfl, rfl⟩

/-- C9 (amended): when the fetch reports not-modified while the cached
    index file is missing or unreadable, synchronization fails with the
    cache-read error — an error, not an implicit empty index — though not
    with the SyncUnavailable-tagged error the spec prescribes. -/
theorem C9_amended (decode : String → Option IndexMap)
    (encode : IndexMap → String) (fs : FsState) (force : Bool)
    (etagHdr : Option String) (body : String)
    (h : fs.idxFile.readToString = none) :
    (load_or_fetch decode encode fs force
        (NetResult.response 304 etagHdr body)).result
      = Except.error Err.readFail := by
  have h0 : try_cache_hit decode force fs.idxFile = none :=
    try_cache_hit_no_read decode force fs.idxFile h
  simp [load_or_fetch, h0, after_cache_miss, fetch, read_cached_index, h]

/-- C9 (witness): an unreadable cached index file plus a 304 response
    yields the cache-read error. -/
theorem C9_witness :
    (load_or_fetch decEx encEx fsUnreadable true
        (NetResult.response 304 none "")).result
      = Except.error Err.readFail :=
  C9_amended decEx encEx fsUnreadable true none "" rfl

/-- C10: a cached template file that exists but cannot be read makes
    get_template return none, exactly as if it were absent, so the review
    renders the full fetched content as a first-time install instead of a
    diff and no read failure is surfaced. -/
theorem C10_unreadable_template (store : TStore) (pkg current : String)
    (env : ReviewEnv) (h : get_file store pkg = File.unreadable) :
    get_template store pkg = none ∧
    (review_changes pkg current (get_template store pkg) env).render
      = RenderMode.fullView := by
  have hg : get_template store pkg = none := by
    simp [get_template, h, File.pathExists, File.readToString]
  refine ⟨hg, ?_⟩
  rw [hg]
  rfl

/-- C10 (witness): foo's unreadable cached template is treated as a
    first-time install with the full view rendered. -/
theorem C10_witness :
    get_template storeUnreadable "foo" = none ∧
    (review_changes "foo" "TPL" (get_template storeUnreadable "foo")
        ⟨true, true, PromptRead.line ""⟩).render = RenderMode.fullView :=
  C10_unreadable_template storeUnreadable "foo" "TPL"
    ⟨true, true, PromptRead.line ""⟩ rfl

end Vuru
